import Mathlib

/-!
Verification development for the JIRA tool gateway (`app/tools/jira.py`,
`app/server.py`).

The two tools `get_jira_issue` and `create_jira_issue` are shallowly
embedded as total Lean functions.  Request headers are three
`Option String` values (the three `x-jira-*` headers, `none` meaning the
header is absent).  The behaviour of the backend HTTP call is an explicit
parameter of type `BackendResult`: the call may time out, raise some other
exception (carrying the Python `str(e)` message), or deliver a response
with a status code, a body text, and the outcome of `resp.json()`
(`Except.error m` models a parse exception with message `m`).  Every
Python exception path inside the tool body is modelled in an
`Except String` monad (`Py`), matching the outermost `try/except` of the
source, so each embedded tool is total and yields exactly one result
string.
-/

/-- Parsed JSON values, as produced by `resp.json()` in the source. -/
inductive JValue where
  | null
  | bool (b : Bool)
  | num (n : Int)
  | str (s : String)
  | arr (elems : List JValue)
  | obj (entries : List (String × JValue))

/-- Python exceptions are modelled by their `str(e)` message. -/
abbrev Py (α : Type) := Except String α

/-- Lookup of a key in a parsed JSON object (Python `dict` access order:
the builds in the source never repeat a key). -/
def jlookup (entries : List (String × JValue)) (k : String) : Option JValue :=
  match entries.find? (fun p => p.1 == k) with
  | some p => some p.2
  | none => none

/-- Python `data[k]`: `KeyError` (whose `str` is the quoted key) when the
key is absent, `TypeError` when the value is not a dict. -/
def JValue.subscript : JValue → String → Py JValue
  | .obj entries, k =>
      match jlookup entries k with
      | some v => .ok v
      | none => .error ("\x27" ++ k ++ "\x27")
  | _, _ => .error "object is not subscriptable"

/-- Python `d.get(k, dflt)`: the default only when the key is absent;
`AttributeError` when the receiver is not a dict. -/
def JValue.pyGet : JValue → String → JValue → Py JValue
  | .obj entries, k, dflt => .ok ((jlookup entries k).getD dflt)
  | _, _, _ => .error "object has no attribute \x27get\x27"

/-- Python truthiness of a parsed JSON value. -/
def JValue.truthy : JValue → Bool
  | .null => false
  | .bool b => b
  | .num n => n != 0
  | .str s => !s.data.isEmpty
  | .arr xs => !xs.isEmpty
  | .obj entries => !entries.isEmpty

mutual

/-- Python `repr` of a parsed JSON value (string escaping inside `repr`
is not modelled; no claim depends on it). -/
def pyrepr : JValue → String
  | .null => "None"
  | .bool true => "True"
  | .bool false => "False"
  | .num n => toString n
  | .str s => "\x27" ++ s ++ "\x27"
  | .arr xs => "[" ++ pyreprElems xs ++ "]"
  | .obj entries => "\x7b" ++ pyreprEntries entries ++ "\x7d"

def pyreprElems : List JValue → String
  | [] => ""
  | [x] => pyrepr x
  | x :: xs => pyrepr x ++ ", " ++ pyreprElems xs

def pyreprEntries : List (String × JValue) → String
  | [] => ""
  | [p] => "\x27" ++ p.1 ++ "\x27: " ++ pyrepr p.2
  | p :: ps => "\x27" ++ p.1 ++ "\x27: " ++ pyrepr p.2 ++ ", " ++ pyreprEntries ps

end

/-- Python `str()` as used by f-string interpolation. -/
def pystr : JValue → String
  | .str s => s
  | v => pyrepr v

/-- Python `s.rstrip("/")`: remove every trailing slash. -/
def rstripSlash (s : String) : String :=
  String.mk ((s.data.reverse.dropWhile (fun c => c == '/')).reverse)

/-- Python `s[:n]` character slicing. -/
def strTake (s : String) (n : Nat) : String :=
  String.mk (s.data.take n)

/-- The ASCII whitespace stripped by Python `str.strip()`. -/
def pySpace (c : Char) : Bool :=
  c == ' ' || c == '\t' || c == '\n' || c == '\r' ||
    c == Char.ofNat 11 || c == Char.ofNat 12

/-- Python `s.strip()`. -/
def pstrip (s : String) : String :=
  String.mk (((s.data.dropWhile pySpace).reverse.dropWhile pySpace).reverse)

/-- `pat` occurs at the head of the list. -/
def leadsList : List Char → List Char → Bool
  | [], _ => true
  | _ :: _, [] => false
  | a :: pa, b :: l => a == b && leadsList pa l

/-- `pat` occurs somewhere in the list. -/
def occursIn (pat : List Char) : List Char → Bool
  | [] => leadsList pat []
  | b :: t => leadsList pat (b :: t) || occursIn pat t

/-- Substring containment on strings. -/
def strContains (pat s : String) : Bool :=
  occursIn pat.data s.data

/-- Case-insensitive substring containment. -/
def strContainsCI (pat s : String) : Bool :=
  occursIn (pat.data.map Char.toLower) (s.data.map Char.toLower)

/-- Failure outcomes in the source are exactly the strings carrying the
cross-mark prefix. -/
def isFailureMark (s : String) : Bool :=
  leadsList "❌".data s.data

/-- Behaviour of the backend HTTP call issued by a tool: time out, raise
some other exception during the call, or deliver a response with status
code, body text and the outcome of `resp.json()`. -/
inductive BackendResult where
  | timeout
  | exc (msg : String)
  | response (status : Nat) (text : String) (jsonb : Py JValue)

/-- Observable outcome of one tool invocation: the returned string, how
many backend HTTP calls were made, the URL of that call, and (for the
create tool) the JSON payload posted. -/
structure CallResult where
  result : String
  networkCalls : Nat
  requestUrl : Option String
  payload : Option JValue

/-- Python truthiness of `headers.get(k)`: absent or empty means falsy
(the source tests `not all([...])`). -/
def headerTruthy : Option String → Bool
  | none => false
  | some s => !s.data.isEmpty

/-- The `missing` list built by both tools: keys of the
`x-jira-url / x-jira-email / x-jira-token` dict whose value is falsy, in
dict insertion order. -/
def missingOf (u e t : Option String) : List String :=
  (if headerTruthy u then [] else ["x-jira-url"]) ++
  (if headerTruthy e then [] else ["x-jira-email"]) ++
  (if headerTruthy t then [] else ["x-jira-token"])

/-- The stripped multi-line f-string returned on a successful fetch. -/
def formatIssue (key summary status assignee : String) : String :=
  pstrip ("\n📋 **JIRA Issue: " ++ key ++ "**\n\n📌 **Summary:** " ++ summary ++
    "\n📊 **Status:** " ++ status ++ "\n👤 **Assignee:** " ++ assignee ++
    "\n            ")

/-- The body of the `status == 200` branch of `get_jira_issue`, in the
evaluation order of the source (`data["fields"]`, the three extractions,
then `data["key"]` at f-string formatting time). -/
def getSuccessBody (data : JValue) : Py String := do
  let fields ← data.subscript "fields"
  let summary ← fields.pyGet "summary" (.str "No summary")
  let statusObj ← fields.pyGet "status" (.obj [])
  let statusName ← statusObj.pyGet "name" (.str "Unknown")
  let assignee ← fields.pyGet "assignee" .null
  let assigneeName ←
    if assignee.truthy then assignee.pyGet "displayName" (.str "Unassigned")
    else pure (.str "Unassigned")
  let key ← data.subscript "key"
  pure (formatIssue (pystr key) (pystr summary) (pystr statusName) (pystr assigneeName))

/-- Embedding of `get_jira_issue` from `app/tools/jira.py`. -/
def get_jira_issue (u e t : Option String) (issue_key : String)
    (backend : BackendResult) : CallResult :=
  if !(headerTruthy u && headerTruthy e && headerTruthy t) then
    ⟨"❌ Missing required headers: " ++ String.intercalate ", " (missingOf u e t),
      0, none, none⟩
  else
    let base_url := rstripSlash (u.getD "")
    let url := base_url ++ "/rest/api/3/issue/" ++ issue_key
    ⟨(match backend with
      | .timeout => "❌ Timeout reaching JIRA server"
      | .exc m => "❌ Unexpected error: " ++ m
      | .response status text jsonb =>
        if status == 404 then "❌ Issue \x27" ++ issue_key ++ "\x27 not found."
        else if status == 401 then
          "❌ Authentication failed — check your email and API token."
        else if status != 200 then
          "❌ JIRA error " ++ toString status ++ ": " ++ strTake text 200
        else
          match jsonb >>= getSuccessBody with
          | .ok s => s
          | .error m => "❌ Unexpected error: " ++ m),
      1, some url, none⟩

/-- The structured rich-text document envelope built for the issue
description. -/
def descriptionADF (description : String) : JValue :=
  .obj [("type", .str "doc"), ("version", .num 1),
    ("content", .arr [
      .obj [("type", .str "paragraph"),
        ("content", .arr [
          .obj [("type", .str "text"), ("text", .str description)]])]])]

/-- Python truthiness of the optional `labels` argument. -/
def labelsTruthy : Option (List String) → Bool
  | none => false
  | some l => !l.isEmpty

/-- The `fields` dict built by `create_jira_issue`, in insertion order,
with the two conditional entries. -/
def buildFields (project_key summary description issue_type : String)
    (assignee_email : Option String) (labels : Option (List String)) :
    List (String × JValue) :=
  [("project", .obj [("key", .str project_key)]),
   ("summary", .str summary),
   ("description", descriptionADF description),
   ("issuetype", .obj [("name", .str issue_type)])] ++
  (if headerTruthy assignee_email then [("assignee", .obj [("accountId", .null)])] else []) ++
  (if labelsTruthy labels then [("labels", .arr ((labels.getD []).map .str))] else [])

/-- The JSON payload posted by `create_jira_issue`. -/
def createPayload (project_key summary description issue_type : String)
    (assignee_email : Option String) (labels : Option (List String)) : JValue :=
  .obj [("fields", .obj (buildFields project_key summary description issue_type
    assignee_email labels))]

/-- The stripped multi-line f-string returned on a successful creation. -/
def formatCreated (key link summary issue_type : String) : String :=
  pstrip ("\n✅ **JIRA Issue Created Successfully!**\n\n📋 **Key:** " ++ key ++
    "\n🔗 **Link:** " ++ link ++ "\n📌 **Summary:** " ++ summary ++
    "\n📊 **Type:** " ++ issue_type ++ "\n                ")

/-- Embedding of `create_jira_issue` from `app/tools/jira.py`. -/
def create_jira_issue (u e t : Option String)
    (project_key summary description issue_type : String)
    (assignee_email : Option String) (labels : Option (List String))
    (backend : BackendResult) : CallResult :=
  if !(headerTruthy u && headerTruthy e && headerTruthy t) then
    ⟨"❌ Missing headers: " ++ String.intercalate ", " (missingOf u e t),
      0, none, none⟩
  else
    let base_url := rstripSlash (u.getD "")
    let url := base_url ++ "/rest/api/3/issue"
    let payload := createPayload project_key summary description issue_type
      assignee_email labels
    ⟨(match backend with
      | .timeout => "❌ Timeout while creating issue"
      | .exc m => "❌ Unexpected error: " ++ m
      | .response status text jsonb =>
        if status == 200 || status == 201 then
          match (do
            let data ← jsonb
            let key ← data.subscript "key"
            pure (formatCreated (pystr key) (base_url ++ "/browse/" ++ pystr key)
              summary issue_type) : Py String) with
          | .ok s => s
          | .error m => "❌ Unexpected error: " ++ m
        else
          "❌ Failed to create issue: " ++ toString status ++ "\n" ++ strTake text 300),
      1, some url, some payload⟩

/-- Modelled from the spec: the env-driven single-tenant startup variant
(§4.1, §6, §7 of the specification) is not present under `src/` — in
`app/server.py` only `load_dotenv()` runs and the three environment reads
are commented out.  Per the spec, startup reads the three values once;
it aborts (here: `none`) when identity or secret is absent; the base URL
falls back to a built-in default when unset. -/
structure TenantConfig where
  baseUrl : String
  identity : String
  secret : String

/-- Modelled from the spec: single-tenant startup resolution, `none`
meaning the process aborts at startup. -/
def singleTenantStartup (defaultBase : String)
    (envUrl envIdentity envSecret : Option String) : Option TenantConfig :=
  match envIdentity, envSecret with
  | some ident, some sec => some ⟨envUrl.getD defaultBase, ident, sec⟩
  | _, _ => none

/-- The required header names in their declared order (url, email, token). -/
def requiredHeaderNames : List String := ["x-jira-url", "x-jira-email", "x-jira-token"]

/-- Spec-side description of the missing-header list: the declared
required set filtered, in order, to the entries whose value is missing. -/
def specMissing (u e t : Option String) : List String :=
  requiredHeaderNames.filter (fun n =>
    if n == "x-jira-url" then !headerTruthy u
    else if n == "x-jira-email" then !headerTruthy e
    else !headerTruthy t)

/-- Pure lookup of a key inside a JSON object value. -/
def jfield (v : JValue) (k : String) : Option JValue :=
  match v with
  | .obj entries => jlookup entries k
  | _ => none

/-- Pure index into a JSON array value. -/
def jindex (v : JValue) (i : Nat) : Option JValue :=
  match v with
  | .arr xs => xs.get? i
  | _ => none

/-- Pure lookup along a path of object keys. -/
def jpath (v : JValue) : List String → Option JValue
  | [] => some v
  | k :: ks =>
    match jfield v k with
    | some w => jpath w ks
    | none => none

/-- The text of the first paragraph of the description envelope:
`fields.description.content[0].content[0].text`. -/
def jdescText (v : JValue) : Option JValue :=
  (jpath v ["fields", "description", "content"]).bind (fun c =>
    (jindex c 0).bind (fun p =>
      (jfield p "content").bind (fun c2 =>
        (jindex c2 0).bind (fun tx => jfield tx "text"))))

/-- Number of entries of the `fields` object of a payload. -/
def fieldCount : JValue → Nat
  | .obj [(_, .obj entries)] => entries.length
  | _ => 0

theorem occursIn_append_right (pat a b : List Char) (h : occursIn pat b = true) :
    occursIn pat (a ++ b) = true := by
  induction a with
  | nil => exact h
  | cons x xs ih =>
      show occursIn pat (x :: (xs ++ b)) = true
      unfold occursIn
      rw [Bool.or_eq_true]
      exact Or.inr ih

theorem strContains_append_right (pat a b : String) (h : strContains pat b = true) :
    strContains pat (a ++ b) = true := by
  unfold strContains
  rw [String.data_append]
  exact occursIn_append_right _ _ _ h

theorem dropWhile_replicate_append (p : Char → Bool) (c : Char) (hc : p c = true)
    (k : Nat) (l : List Char) :
    (List.replicate k c ++ l).dropWhile p = l.dropWhile p := by
  induction k with
  | zero => rfl
  | succ n ih =>
      rw [List.replicate_succ, List.cons_append, List.dropWhile_cons, if_pos hc]
      exact ih

/-- A run of `k` trailing slashes. -/
def slashes (k : Nat) : String := String.mk (List.replicate k '/')

theorem rstripSlash_append_slashes (u : String) (k : Nat) :
    rstripSlash (u ++ slashes k) = rstripSlash u := by
  unfold rstripSlash slashes
  rw [String.data_append]
  show String.mk ((((u.data ++ List.replicate k '/').reverse).dropWhile _).reverse) = _
  rw [List.reverse_append, List.reverse_replicate,
    dropWhile_replicate_append _ '/' rfl]

theorem head?_dropWhile_false (p : Char → Bool) (l : List Char) (x : Char)
    (h : (l.dropWhile p).head? = some x) : p x = false := by
  induction l with
  | nil => simp [List.dropWhile] at h
  | cons a l ih =>
      cases hp : p a with
      | true =>
          rw [List.dropWhile_cons, if_pos hp] at h
          exact ih h
      | false =>
          rw [List.dropWhile_cons, if_neg (by simp [hp])] at h
          simp at h
          rw [← h]
          exact hp

theorem rstripSlash_no_trailing (s : String) :
    (rstripSlash s).data.getLast? ≠ some '/' := by
  intro h
  unfold rstripSlash at h
  rw [show (String.mk ((s.data.reverse.dropWhile (fun c => c == '/')).reverse)).data =
      (s.data.reverse.dropWhile (fun c => c == '/')).reverse from rfl,
    List.getLast?_reverse] at h
  have := head?_dropWhile_false _ _ _ h
  simp at this

/-- Claim C2: whenever any of the three credential headers is absent,
both tools return the Failure string that names exactly the missing
entries, in the declared required order (url, email, token), and make no
network call. -/
theorem missing_headers_short_circuit (u e t : Option String)
    (issue_key project_key summary description issue_type : String)
    (assignee_email : Option String) (labels : Option (List String))
    (backend : BackendResult)
    (h : u = none ∨ e = none ∨ t = none) :
    (get_jira_issue u e t issue_key backend).result =
      "❌ Missing required headers: " ++ String.intercalate ", " (specMissing u e t) ∧
    (get_jira_issue u e t issue_key backend).networkCalls = 0 ∧
    (create_jira_issue u e t project_key summary description issue_type
        assignee_email labels backend).result =
      "❌ Missing headers: " ++ String.intercalate ", " (specMissing u e t) ∧
    (create_jira_issue u e t project_key summary description issue_type
        assignee_email labels backend).networkCalls = 0 := by
  have hmiss : missingOf u e t = specMissing u e t := by
    cases hu : headerTruthy u <;> cases he : headerTruthy e <;>
      cases ht : headerTruthy t <;>
      simp [missingOf, specMissing, requiredHeaderNames, hu, he, ht]
  have hfalse : (headerTruthy u && headerTruthy e && headerTruthy t) = false := by
    rcases h with h | h | h <;> rw [h] <;> simp [headerTruthy]
  simp [get_jira_issue, create_jira_issue, hfalse, hmiss]

/-- Claim C2 witness at a concrete input: url and token headers absent. -/
theorem missing_headers_short_circuit_witness :
    (get_jira_issue none (some "a@b.c") none "KAN-2" .timeout).result =
      "❌ Missing required headers: " ++
        String.intercalate ", " (specMissing none (some "a@b.c") none) ∧
    (get_jira_issue none (some "a@b.c") none "KAN-2" .timeout).networkCalls = 0 ∧
    (create_jira_issue none (some "a@b.c") none "KAN" "Sum" "Desc" "Task" none none
        .timeout).result =
      "❌ Missing headers: " ++
        String.intercalate ", " (specMissing none (some "a@b.c") none) ∧
    (create_jira_issue none (some "a@b.c") none "KAN" "Sum" "Desc" "Task" none none
        .timeout).networkCalls = 0 :=
  missing_headers_short_circuit none (some "a@b.c") none "KAN-2" "KAN" "Sum" "Desc"
    "Task" none none .timeout (Or.inl rfl)

/-- Claim C1: once the credential headers are present so a backend call
is attempted, each tool is a total function returning one result string
(totality is by construction of the embedding); a timeout yields a
Failure mentioning timeout, any other exception raised during the call
yields the Failure carrying the exception message, and an exception
raised while parsing the JSON body of a success-status response is
likewise converted to that Failure. -/
theorem gateway_never_raises (u e t : Option String)
    (issue_key project_key summary description issue_type : String)
    (assignee_email : Option String) (labels : Option (List String))
    (hu : headerTruthy u = true) (he : headerTruthy e = true)
    (ht : headerTruthy t = true) :
    (strContainsCI "timeout" (get_jira_issue u e t issue_key .timeout).result = true ∧
     strContainsCI "timeout" (create_jira_issue u e t project_key summary description
        issue_type assignee_email labels .timeout).result = true ∧
     isFailureMark (get_jira_issue u e t issue_key .timeout).result = true ∧
     isFailureMark (create_jira_issue u e t project_key summary description
        issue_type assignee_email labels .timeout).result = true) ∧
    (∀ m, (get_jira_issue u e t issue_key (.exc m)).result =
        "❌ Unexpected error: " ++ m ∧
      (create_jira_issue u e t project_key summary description issue_type
          assignee_email labels (.exc m)).result = "❌ Unexpected error: " ++ m) ∧
    (∀ m text, (get_jira_issue u e t issue_key
        (.response 200 text (.error m))).result = "❌ Unexpected error: " ++ m) ∧
    (∀ m text status, status = 200 ∨ status = 201 →
      (create_jira_issue u e t project_key summary description issue_type
          assignee_email labels (.response status text (.error m))).result =
        "❌ Unexpected error: " ++ m) := by
  refine ⟨⟨?_, ?_, ?_, ?_⟩, ?_, ?_, ?_⟩
  · simp [get_jira_issue, hu, he, ht]
    decide
  · simp [create_jira_issue, hu, he, ht]
    decide
  · simp [get_jira_issue, hu, he, ht]
    decide
  · simp [create_jira_issue, hu, he, ht]
    decide
  · intro m
    constructor <;> simp [get_jira_issue, create_jira_issue, hu, he, ht]
  · intro m text
    simp [get_jira_issue, hu, he, ht, Bind.bind, Except.bind]
  · intro m text status hst
    rcases hst with h | h <;> rw [h] <;>
      simp [create_jira_issue, hu, he, ht, Bind.bind, Except.bind]

/-- Claim C1 witness at concrete inputs: a timeout and a raised
exception, for both tools. -/
theorem gateway_never_raises_witness :
    strContainsCI "timeout"
      (get_jira_issue (some "https://x.atlassian.net") (some "a@b.c") (some "tok")
        "KAN-2" .timeout).result = true ∧
    strContainsCI "timeout"
      (create_jira_issue (some "https://x.atlassian.net") (some "a@b.c") (some "tok")
        "KAN" "Sum" "Desc" "Task" none none .timeout).result = true ∧
    (get_jira_issue (some "https://x.atlassian.net") (some "a@b.c") (some "tok")
        "KAN-2" (.exc "boom")).result = "❌ Unexpected error: boom" ∧
    (get_jira_issue (some "https://x.atlassian.net") (some "a@b.c") (some "tok")
        "KAN-2" (.response 200 "bad json" (.error "Expecting value"))).result =
      "❌ Unexpected error: Expecting value" := by
  have h := gateway_never_raises (some "https://x.atlassian.net") (some "a@b.c")
    (some "tok") "KAN-2" "KAN" "Sum" "Desc" "Task" none none rfl rfl rfl
  exact ⟨h.1.1, h.1.2.1, (h.2.1 "boom").1, h.2.2.1 "Expecting value" "bad json"⟩

/-- Claim C3 fails as stated: on status 401 the returned Failure is
"❌ Authentication failed — check your email and API token.", which does
not contain the lowercase phrase "authentication failed" quoted by the
claim. -/
theorem fetch_401_lowercase_counterexample :
    (get_jira_issue (some "https://x.atlassian.net") (some "a@b.c") (some "tok")
        "KAN-2" (.response 401 "" (.ok .null))).result =
      "❌ Authentication failed — check your email and API token." ∧
    strContains "authentication failed"
      (get_jira_issue (some "https://x.atlassian.net") (some "a@b.c") (some "tok")
        "KAN-2" (.response 401 "" (.ok .null))).result = false := by
  constructor <;> decide

/-- Claim C3 (amended): with the credential headers present, status 404
yields the Failure containing "not found"; status 401 yields the Failure
containing "Authentication failed" (the source capitalizes the phrase, so
the containment holds with a capital A, not verbatim lowercase); on a
status-200 response the summary defaults to "No summary", the status name
to "Unknown" and the assignee to "Unassigned" when the corresponding
field is absent; and the status-200 example body of the spec yields a
Success containing "KAN-2", "Fix bug", "Open" and "Unassigned". -/
theorem fetch_status_mapping (u e t : Option String) (issue_key text : String)
    (jsonb : Py JValue)
    (hu : headerTruthy u = true) (he : headerTruthy e = true)
    (ht : headerTruthy t = true) :
    ((get_jira_issue u e t issue_key (.response 404 text jsonb)).result =
        "❌ Issue \x27" ++ issue_key ++ "\x27 not found." ∧
      strContains "not found"
        (get_jira_issue u e t issue_key (.response 404 text jsonb)).result = true) ∧
    ((get_jira_issue u e t issue_key (.response 401 text jsonb)).result =
        "❌ Authentication failed — check your email and API token." ∧
      strContains "Authentication failed"
        (get_jira_issue u e t issue_key (.response 401 text jsonb)).result = true) ∧
    (∀ ds entries kv, jsonb = .ok (.obj ds) →
      jlookup ds "fields" = some (.obj entries) →
      jlookup ds "key" = some kv →
      jlookup entries "summary" = none →
      jlookup entries "status" = none →
      jlookup entries "assignee" = none →
      (get_jira_issue u e t issue_key (.response 200 text jsonb)).result =
        formatIssue (pystr kv) "No summary" "Unknown" "Unassigned") ∧
    (strContains "KAN-2"
        (get_jira_issue (some "https://x.atlassian.net") (some "a@b.c") (some "tok")
          "KAN-2" (.response 200 "" (.ok (.obj [("key", .str "KAN-2"),
            ("fields", .obj [("summary", .str "Fix bug"),
              ("status", .obj [("name", .str "Open")])])])))).result = true ∧
      strContains "Fix bug"
        (get_jira_issue (some "https://x.atlassian.net") (some "a@b.c") (some "tok")
          "KAN-2" (.response 200 "" (.ok (.obj [("key", .str "KAN-2"),
            ("fields", .obj [("summary", .str "Fix bug"),
              ("status", .obj [("name", .str "Open")])])])))).result = true ∧
      strContains "Open"
        (get_jira_issue (some "https://x.atlassian.net") (some "a@b.c") (some "tok")
          "KAN-2" (.response 200 "" (.ok (.obj [("key", .str "KAN-2"),
            ("fields", .obj [("summary", .str "Fix bug"),
              ("status", .obj [("name", .str "Open")])])])))).result = true ∧
      strContains "Unassigned"
        (get_jira_issue (some "https://x.atlassian.net") (some "a@b.c") (some "tok")
          "KAN-2" (.response 200 "" (.ok (.obj [("key", .str "KAN-2"),
            ("fields", .obj [("summary", .str "Fix bug"),
              ("status", .obj [("name", .str "Open")])])])))).result = true ∧
      isFailureMark
        (get_jira_issue (some "https://x.atlassian.net") (some "a@b.c") (some "tok")
          "KAN-2" (.response 200 "" (.ok (.obj [("key", .str "KAN-2"),
            ("fields", .obj [("summary", .str "Fix bug"),
              ("status", .obj [("name", .str "Open")])])])))).result = false) := by
  have h404 : (get_jira_issue u e t issue_key (.response 404 text jsonb)).result =
      "❌ Issue \x27" ++ issue_key ++ "\x27 not found." := by
    simp [get_jira_issue, hu, he, ht]
  have h401 : (get_jira_issue u e t issue_key (.response 401 text jsonb)).result =
      "❌ Authentication failed — check your email and API token." := by
    simp [get_jira_issue, hu, he, ht]
  refine ⟨⟨h404, ?_⟩, ⟨h401, ?_⟩, ?_, ?_⟩
  · rw [h404]
    exact strContains_append_right _ _ _ (by decide)
  · rw [h401]
    decide
  · intro ds entries kv hjson hfields hkey hsum hstat hass
    subst hjson
    have hnil : ∀ k, jlookup ([] : List (String × JValue)) k = none := fun _ => rfl
    simp [get_jira_issue, hu, he, ht, getSuccessBody, Bind.bind, Except.bind,
      Pure.pure, Except.pure, JValue.subscript, JValue.pyGet, JValue.truthy,
      pystr, hfields, hkey, hsum, hstat, hass, hnil]
  · refine ⟨by decide, by decide, by decide, by decide, by decide⟩

/-- Claim C3 witness at concrete inputs: the 404 branch and the
all-defaults 200 branch. -/
theorem fetch_status_mapping_witness :
    (get_jira_issue (some "https://x.atlassian.net") (some "a@b.c") (some "tok")
        "KAN-2" (.response 404 "" (.ok .null))).result =
      "❌ Issue \x27KAN-2\x27 not found." ∧
    (get_jira_issue (some "https://x.atlassian.net") (some "a@b.c") (some "tok")
        "K-7" (.response 200 ""
          (.ok (.obj [("key", .str "K-7"), ("fields", .obj [])])))).result =
      formatIssue "K-7" "No summary" "Unknown" "Unassigned" := by
  have h1 := fetch_status_mapping (some "https://x.atlassian.net") (some "a@b.c")
    (some "tok") "KAN-2" "" (.ok .null) rfl rfl rfl
  have h2 := fetch_status_mapping (some "https://x.atlassian.net") (some "a@b.c")
    (some "tok") "K-7" "" (.ok (.obj [("key", .str "K-7"), ("fields", .obj [])]))
    rfl rfl rfl
  exact ⟨h1.1.1, h2.2.2.1 [("key", .str "K-7"), ("fields", .obj [])] [] (.str "K-7")
    rfl rfl rfl rfl rfl rfl⟩

/-- Claim C4 fails as stated: status 201 is in the 2xx range, yet
`get_jira_issue` does not parse the body and returns the generic Failure
carrying the status code — the source tests `status_code != 200`, not
the 2xx range. -/
theorem fetch_201_counterexample :
    (200 ≤ 201 ∧ 201 < 300) ∧
    (get_jira_issue (some "https://x.atlassian.net") (some "a@b.c") (some "tok")
        "KAN-2" (.response 201 "Created" (.ok (.obj [("key", .str "KAN-2"),
          ("fields", .obj [])])))).result = "❌ JIRA error 201: Created" ∧
    isFailureMark
      (get_jira_issue (some "https://x.atlassian.net") (some "a@b.c") (some "tok")
        "KAN-2" (.response 201 "Created" (.ok (.obj [("key", .str "KAN-2"),
          ("fields", .obj [])])))).result = true := by
  exact ⟨by decide, by decide, by decide⟩

/-- Claim C4 (amended): with the credential headers present, only a
response with status exactly 200 is parsed and returns the composed
Success body; every status other than 200, 404 and 401 — including 2xx
statuses such as 201 — yields the generic Failure containing the status
code and the first 200 characters of the response body. -/
theorem fetch_only_200_success (u e t : Option String) (issue_key text : String)
    (status : Nat) (jsonb : Py JValue)
    (hu : headerTruthy u = true) (he : headerTruthy e = true)
    (ht : headerTruthy t = true) :
    (status ≠ 404 → status ≠ 401 → status ≠ 200 →
      (get_jira_issue u e t issue_key (.response status text jsonb)).result =
        "❌ JIRA error " ++ toString status ++ ": " ++ strTake text 200) ∧
    (∀ data s, jsonb = .ok data → getSuccessBody data = .ok s →
      (get_jira_issue u e t issue_key (.response 200 text jsonb)).result = s) := by
  constructor
  · intro h404 h401 h200
    have b404 : (status == 404) = false := by simp [h404]
    have b401 : (status == 401) = false := by simp [h401]
    have b200 : (status != 200) = true := by simp [h200]
    simp [get_jira_issue, hu, he, ht, b404, b401, b200]
  · intro data s hjson hbody
    subst hjson
    simp [get_jira_issue, hu, he, ht, Bind.bind, Except.bind, hbody]

/-- Claim C4 witness at concrete inputs: a 503 response and a parsed 200
response. -/
theorem fetch_only_200_success_witness :
    (get_jira_issue (some "https://x.atlassian.net") (some "a@b.c") (some "tok")
        "KAN-2" (.response 503 "Service Unavailable" (.ok .null))).result =
      "❌ JIRA error " ++ toString 503 ++ ": " ++ strTake "Service Unavailable" 200 ∧
    (get_jira_issue (some "https://x.atlassian.net") (some "a@b.c") (some "tok")
        "KAN-2" (.response 200 "" (.ok (.obj [("key", .str "KAN-2"),
          ("fields", .obj [])])))).result =
      formatIssue "KAN-2" "No summary" "Unknown" "Unassigned" := by
  have h1 := fetch_only_200_success (some "https://x.atlassian.net") (some "a@b.c")
    (some "tok") "KAN-2" "Service Unavailable" 503 (.ok .null) rfl rfl rfl
  have h2 := fetch_only_200_success (some "https://x.atlassian.net") (some "a@b.c")
    (some "tok") "KAN-2" "" 200 (.ok (.obj [("key", .str "KAN-2"),
      ("fields", .obj [])])) rfl rfl rfl
  exact ⟨h1.1 (by decide) (by decide) (by decide),
    h2.2 (.obj [("key", .str "KAN-2"), ("fields", .obj [])])
      (formatIssue "KAN-2" "No summary" "Unknown" "Unassigned") rfl rfl⟩

/-- Claim C5: with the credential headers present, `create_jira_issue`
on status 200 or 201 parses the body, extracts `key`, and returns the
Success message embedding that key and the browse URL
`{base_url}/browse/{key}`; on any other status it returns the Failure
containing the status code and the first 300 characters of the body. -/
theorem create_status_mapping (u e t : Option String)
    (project_key summary description issue_type : String)
    (assignee_email : Option String) (labels : Option (List String))
    (status : Nat) (text : String) (jsonb : Py JValue)
    (hu : headerTruthy u = true) (he : headerTruthy e = true)
    (ht : headerTruthy t = true) :
    (∀ ds kv, (status = 200 ∨ status = 201) → jsonb = .ok (.obj ds) →
      jlookup ds "key" = some kv →
      (create_jira_issue u e t project_key summary description issue_type
          assignee_email labels (.response status text jsonb)).result =
        formatCreated (pystr kv)
          (rstripSlash (u.getD "") ++ "/browse/" ++ pystr kv) summary issue_type) ∧
    (status ≠ 200 → status ≠ 201 →
      (create_jira_issue u e t project_key summary description issue_type
          assignee_email labels (.response status text jsonb)).result =
        "❌ Failed to create issue: " ++ toString status ++ "\n" ++ strTake text 300) := by
  constructor
  · intro ds kv hst hjson hkey
    subst hjson
    rcases hst with h | h <;> subst h <;>
      simp [create_jira_issue, hu, he, ht, Bind.bind, Except.bind, Pure.pure,
        Except.pure, JValue.subscript, hkey]
  · intro h200 h201
    have b200 : (status == 200) = false := by simp [h200]
    have b201 : (status == 201) = false := by simp [h201]
    simp [create_jira_issue, hu, he, ht, b200, b201]

/-- Claim C5 witness at concrete inputs: the 201 example of the spec
(body `\x7b"key":"KAN-9"\x7d`, Success containing "KAN-9" and a URL
ending in "/browse/KAN-9") and a 400 response. -/
theorem create_status_mapping_witness :
    (create_jira_issue (some "https://x.atlassian.net") (some "a@b.c") (some "tok")
        "KAN" "Sum" "Desc" "Task" none none
        (.response 201 "" (.ok (.obj [("key", .str "KAN-9")])))).result =
      formatCreated "KAN-9"
        (rstripSlash "https://x.atlassian.net" ++ "/browse/" ++ "KAN-9") "Sum" "Task" ∧
    strContains "KAN-9"
      (create_jira_issue (some "https://x.atlassian.net") (some "a@b.c") (some "tok")
        "KAN" "Sum" "Desc" "Task" none none
        (.response 201 "" (.ok (.obj [("key", .str "KAN-9")])))).result = true ∧
    strContains "/browse/KAN-9"
      (create_jira_issue (some "https://x.atlassian.net") (some "a@b.c") (some "tok")
        "KAN" "Sum" "Desc" "Task" none none
        (.response 201 "" (.ok (.obj [("key", .str "KAN-9")])))).result = true ∧
    (create_jira_issue (some "https://x.atlassian.net") (some "a@b.c") (some "tok")
        "KAN" "Sum" "Desc" "Task" none none
        (.response 400 "Bad request" (.ok .null))).result =
      "❌ Failed to create issue: " ++ toString 400 ++ "\n" ++ strTake "Bad request" 300 := by
  have h1 := create_status_mapping (some "https://x.atlassian.net") (some "a@b.c")
    (some "tok") "KAN" "Sum" "Desc" "Task" none none 201 ""
    (.ok (.obj [("key", .str "KAN-9")])) rfl rfl rfl
  have h2 := create_status_mapping (some "https://x.atlassian.net") (some "a@b.c")
    (some "tok") "KAN" "Sum" "Desc" "Task" none none 400 "Bad request"
    (.ok .null) rfl rfl rfl
  exact ⟨h1.1 [("key", .str "KAN-9")] (.str "KAN-9") (Or.inr rfl) rfl rfl,
    by decide, by decide, h2.2 (by decide) (by decide)⟩

/-- Claim C6: for every input, the payload built for the POST, parsed
back, has fields.project.key, fields.summary, fields.issuetype.name and
fields.description.content[0].content[0].text equal to the inputs, the
description being wrapped in a single-paragraph rich-text envelope of
type "doc" and version 1; the construction is a pure function, hence
deterministic. -/
theorem create_payload_roundtrip (project_key summary description issue_type : String)
    (assignee_email : Option String) (labels : Option (List String)) :
    jpath (createPayload project_key summary description issue_type assignee_email
        labels) ["fields", "project", "key"] = some (.str project_key) ∧
    jpath (createPayload project_key summary description issue_type assignee_email
        labels) ["fields", "summary"] = some (.str summary) ∧
    jpath (createPayload project_key summary description issue_type assignee_email
        labels) ["fields", "issuetype", "name"] = some (.str issue_type) ∧
    jpath (createPayload project_key summary description issue_type assignee_email
        labels) ["fields", "description", "type"] = some (.str "doc") ∧
    jpath (createPayload project_key summary description issue_type assignee_email
        labels) ["fields", "description", "version"] = some (.num 1) ∧
    jdescText (createPayload project_key summary description issue_type assignee_email
        labels) = some (.str description) ∧
    createPayload project_key summary description issue_type assignee_email labels =
      createPayload project_key summary description issue_type assignee_email labels :=
  ⟨rfl, rfl, rfl, rfl, rfl, rfl, rfl⟩

/-- Claim C7: an empty labels list and an absent labels argument both
leave the `labels` field out of the payload; the field is present, with
the given list, exactly when labels is provided non-empty. -/
theorem create_labels_omitted (project_key summary description issue_type : String)
    (assignee_email : Option String) :
    createPayload project_key summary description issue_type assignee_email (some []) =
      createPayload project_key summary description issue_type assignee_email none ∧
    jpath (createPayload project_key summary description issue_type assignee_email
        (some [])) ["fields", "labels"] = none ∧
    jpath (createPayload project_key summary description issue_type assignee_email
        none) ["fields", "labels"] = none ∧
    (∀ l : List String, l ≠ [] →
      jpath (createPayload project_key summary description issue_type assignee_email
          (some l)) ["fields", "labels"] = some (.arr (l.map .str))) := by
  refine ⟨rfl, ?_, ?_, ?_⟩
  · cases ha : headerTruthy assignee_email <;>
      simp only [createPayload, buildFields, ha] <;> rfl
  · cases ha : headerTruthy assignee_email <;>
      simp only [createPayload, buildFields, ha] <;> rfl
  · intro l hl
    cases l with
    | nil => exact absurd rfl hl
    | cons x xs =>
        cases ha : headerTruthy assignee_email <;>
          simp only [createPayload, buildFields, ha] <;> rfl

/-- Claim C7 witness at concrete inputs: empty, absent and non-empty
labels. -/
theorem create_labels_omitted_witness :
    createPayload "KAN" "Sum" "Desc" "Task" none (some []) =
      createPayload "KAN" "Sum" "Desc" "Task" none none ∧
    jpath (createPayload "KAN" "Sum" "Desc" "Task" none (some []))
      ["fields", "labels"] = none ∧
    jpath (createPayload "KAN" "Sum" "Desc" "Task" none (some ["backend"]))
      ["fields", "labels"] = some (.arr (["backend"].map .str)) := by
  have h := create_labels_omitted "KAN" "Sum" "Desc" "Task" none
  exact ⟨h.1, h.2.1, h.2.2.2 ["backend"] (by decide)⟩

/-- Claim C8 fails as stated: a non-empty assigneeEmail changes the
payload — it gains an `assignee` entry carrying accountId null — so the
payload is not identical to the one built with assigneeEmail absent. -/
theorem create_assignee_payload_counterexample :
    createPayload "KAN" "Sum" "Desc" "Task" (some "a@b.c") none ≠
      createPayload "KAN" "Sum" "Desc" "Task" none none := by
  intro h
  have h2 := congrArg fieldCount h
  rw [show fieldCount (createPayload "KAN" "Sum" "Desc" "Task" (some "a@b.c") none) = 5
      from rfl,
    show fieldCount (createPayload "KAN" "Sum" "Desc" "Task" none none) = 4
      from rfl] at h2
  exact absurd h2 (by decide)

/-- Claim C8 (amended): the value of assigneeEmail never appears in the
payload — a truthy assigneeEmail only adds the constant entry
`assignee: \x7b accountId: null \x7d` — so two invocations whose
assigneeEmail values have the same truthiness build identical payloads;
in particular any two non-empty values are interchangeable. -/
theorem create_assignee_email_constant (project_key summary description
    issue_type : String) (ae1 ae2 : Option String) (labels : Option (List String))
    (h : headerTruthy ae1 = headerTruthy ae2) :
    createPayload project_key summary description issue_type ae1 labels =
      createPayload project_key summary description issue_type ae2 labels ∧
    (headerTruthy ae1 = true →
      jpath (createPayload project_key summary description issue_type ae1 labels)
        ["fields", "assignee"] = some (.obj [("accountId", .null)])) := by
  constructor
  · simp only [createPayload, buildFields, h]
  · intro h1
    simp only [createPayload, buildFields, h1]
    rfl

/-- Claim C8 witness at concrete inputs: two different non-empty
assigneeEmail values build the identical payload, which carries the
constant assignee entry. -/
theorem create_assignee_email_constant_witness :
    createPayload "KAN" "Sum" "Desc" "Task" (some "x@y.z") none =
      createPayload "KAN" "Sum" "Desc" "Task" (some "q@r.s") none ∧
    jpath (createPayload "KAN" "Sum" "Desc" "Task" (some "x@y.z") none)
      ["fields", "assignee"] = some (.obj [("accountId", .null)]) := by
  have h := create_assignee_email_constant "KAN" "Sum" "Desc" "Task" (some "x@y.z")
    (some "q@r.s") none rfl
  exact ⟨h.1, h.2 rfl⟩

/-- Claim C9: single-tenant startup resolution (modelled from the spec,
the env-driven variant being absent from the source tree) aborts at
startup exactly when identity or secret is absent, and the base URL
falls back to the built-in default exactly when unset. -/
theorem single_tenant_fail_fast (defaultBase : String)
    (envUrl envIdentity envSecret : Option String) :
    ((singleTenantStartup defaultBase envUrl envIdentity envSecret).isNone ↔
      envIdentity = none ∨ envSecret = none) ∧
    (∀ cfg, singleTenantStartup defaultBase none envIdentity envSecret = some cfg →
      cfg.baseUrl = defaultBase) ∧
    (∀ v cfg, envUrl = some v →
      singleTenantStartup defaultBase envUrl envIdentity envSecret = some cfg →
      cfg.baseUrl = v) := by
  refine ⟨?_, ?_, ?_⟩
  · cases envIdentity <;> cases envSecret <;> simp [singleTenantStartup]
  · intro cfg hcfg
    cases envIdentity <;> cases envSecret <;> simp_all [singleTenantStartup]
    rw [← hcfg]
  · intro v cfg hurl hcfg
    subst hurl
    cases envIdentity <;> cases envSecret <;> simp_all [singleTenantStartup]
    rw [← hcfg]

/-- Claim C9 witness at concrete inputs: startup aborts when the secret
is absent, and the default base URL applies when the URL is unset. -/
theorem single_tenant_fail_fast_witness :
    ((singleTenantStartup "https://d.example" none (some "a@b.c") none).isNone ↔
      (some "a@b.c" : Option String) = none ∨ (none : Option String) = none) ∧
    ∀ cfg, singleTenantStartup "https://d.example" none (some "a@b.c")
        (some "tok") = some cfg → cfg.baseUrl = "https://d.example" := by
  exact ⟨(single_tenant_fail_fast "https://d.example" none (some "a@b.c") none).1,
    (single_tenant_fail_fast "https://d.example" none (some "a@b.c") (some "tok")).2.1⟩

/-- Claim C10: both tools strip every trailing slash from the tracker
URL header before composing outbound URLs — appending any run of
slashes to a non-empty base URL changes nothing observable (result
string, network-call count, request URL and payload are all identical),
the stripped base never ends in a slash, and the request URL joins the
stripped base with a single slash. -/
theorem trailing_slash_invariance (u : String) (k : Nat) (e t : Option String)
    (issue_key project_key summary description issue_type : String)
    (assignee_email : Option String) (labels : Option (List String))
    (backend : BackendResult) (hne : u ≠ "") :
    rstripSlash (u ++ slashes k) = rstripSlash u ∧
    (rstripSlash u).data.getLast? ≠ some '/' ∧
    get_jira_issue (some (u ++ slashes k)) e t issue_key backend =
      get_jira_issue (some u) e t issue_key backend ∧
    create_jira_issue (some (u ++ slashes k)) e t project_key summary description
        issue_type assignee_email labels backend =
      create_jira_issue (some u) e t project_key summary description issue_type
        assignee_email labels backend ∧
    (headerTruthy e = true → headerTruthy t = true →
      (get_jira_issue (some u) e t issue_key backend).requestUrl =
        some (rstripSlash u ++ "/rest/api/3/issue/" ++ issue_key)) := by
  have hdata : u.data ≠ [] := by
    intro hd
    exact hne (String.ext (hd.trans rfl))
  obtain ⟨c, cs, hcs⟩ : ∃ c cs, u.data = c :: cs := by
    cases hu : u.data with
    | nil => exact absurd hu hdata
    | cons c cs => exact ⟨c, cs, rfl⟩
  have h1 : headerTruthy (some (u ++ slashes k)) = true := by
    simp [headerTruthy, String.data_append, hcs]
  have h2 : headerTruthy (some u) = true := by
    simp [headerTruthy, hcs]
  refine ⟨rstripSlash_append_slashes u k, rstripSlash_no_trailing u, ?_, ?_, ?_⟩
  · simp [get_jira_issue, missingOf, h1, h2, rstripSlash_append_slashes]
  · simp [create_jira_issue, missingOf, h1, h2, rstripSlash_append_slashes]
  · intro he ht
    simp [get_jira_issue, h2, he, ht]

/-- Claim C10 witness at concrete inputs: two trailing slashes appended
to a concrete base URL. -/
theorem trailing_slash_invariance_witness :
    rstripSlash ("https://x.atlassian.net" ++ slashes 2) =
      rstripSlash "https://x.atlassian.net" ∧
    (rstripSlash "https://x.atlassian.net").data.getLast? ≠ some '/' ∧
    get_jira_issue (some ("https://x.atlassian.net" ++ slashes 2)) (some "a@b.c")
        (some "tok") "KAN-2" .timeout =
      get_jira_issue (some "https://x.atlassian.net") (some "a@b.c") (some "tok")
        "KAN-2" .timeout := by
  have h := trailing_slash_invariance "https://x.atlassian.net" 2 (some "a@b.c")
    (some "tok") "KAN-2" "KAN" "Sum" "Desc" "Task" none none .timeout (by decide)
  exact ⟨h.1, h.2.1, h.2.2.1⟩
